import Mathlib

/-
Verification development for a social-media backend (Express + Mongoose).
The repository consists of two route files (src/routes/tweets.js and
src/routes/users.js, the latter also holding the search router and the
Tweet schema). We shallowly embed the document store as explicit lists of
User and Tweet records, and each route handler as a pure function from a
store state (plus the authenticated user attached by the auth middleware,
and the parsed request data) to an HTTP-level response together with the
new store state.
-/

namespace TwitterBackend

/-- A Tweet document, following TweetSchema: owning user id, content,
optional image path, likes and retweets as ordered lists of user ids,
optional parent tweet id, reply flag (schema default false), and the
createdAt timestamp added by the timestamps option. Ids are modelled as
strings (Mongo ObjectId hex strings). -/
structure Tweet where
  id : String
  user : String
  content : String
  image : Option String
  likes : List String
  retweets : List String
  parent : Option String
  isReply : Bool
  createdAt : Nat
deriving Repr, DecidableEq

/-- A User document: identity and profile fields, credential fields
(password, email) that responses may strip, and the ordered follower and
following id lists. -/
structure User where
  id : String
  name : String
  username : String
  email : String
  password : String
  bio : String
  location : String
  website : String
  profileImage : String
  coverImage : String
  followers : List String
  following : List String
deriving Repr, DecidableEq

/-- The document store: the User and Tweet collections. -/
structure DB where
  users : List User
  tweets : List Tweet
deriving Repr, DecidableEq

/-- An HTTP-level response outcome, tagged with the payload type of the
success case. The constructors correspond to the status codes the
handlers use: 200, 400, 401, 404, 500. -/
inductive Resp (α : Type) where
  | ok (body : α)
  | badRequest
  | unauthorized
  | notFound
  | serverError
deriving Repr, DecidableEq

/-- The numeric HTTP status of a response. -/
def Resp.status {α : Type} : Resp α → Nat
  | .ok _ => 200
  | .badRequest => 400
  | .unauthorized => 401
  | .notFound => 404
  | .serverError => 500

/-- Whether a character is a hexadecimal digit. -/
def isHexDigit (c : Char) : Bool :=
  c.isDigit || ( 'a' ≤ c && c ≤ 'f') || ( 'A' ≤ c && c ≤ 'F')

/-- A well-formed Mongo ObjectId: a 24-character hexadecimal string.
Mongoose casts a path id to ObjectId; a string failing this check makes
the query throw a CastError whose kind is ObjectId. -/
def validObjectId (s : String) : Bool :=
  s.length == 24 && s.data.all isHexDigit

/-- Tweet.findById: a malformed id throws (modelled as Except.error, the
CastError with kind ObjectId); a well-formed id resolves to the document
with that id, or none. -/
def findTweetById (db : DB) (tid : String) : Except Unit (Option Tweet) :=
  if validObjectId tid then .ok (db.tweets.find? (fun t => t.id == tid)) else .error ()

/-- User.findById, with the same cast behaviour. -/
def findUserById (db : DB) (uid : String) : Except Unit (Option User) :=
  if validObjectId uid then .ok (db.users.find? (fun u => u.id == uid)) else .error ()

/-- Persisting a modified tweet document (tweet.save()): the stored
document with that id is replaced. -/
def updateTweet (db : DB) (t : Tweet) : DB :=
  { db with tweets := db.tweets.map (fun x => if x.id == t.id then t else x) }

/-- User.findByIdAndUpdate with an update function: the stored document
with that id is replaced by the function applied to it. -/
def updateUserById (db : DB) (uid : String) (f : User → User) : DB :=
  { db with users := db.users.map (fun x => if x.id == uid then f x else x) }

/-- The $addToSet update operator: append the value to the array only
when it is not already present. -/
def addToSet (l : List String) (x : String) : List String :=
  if l.contains x then l else l ++ [x]

/-- The $pull update operator on an id array: remove every occurrence of
the value. -/
def pullId (l : List String) (x : String) : List String :=
  l.filter (fun y => y != x)

/-- sort({ createdAt: -1 }): newest first. We fix insertion sort with
the comparator createdAt-descending as the deterministic realisation of
the store sort. -/
def newerFirst (a b : Tweet) : Prop :=
  b.createdAt ≤ a.createdAt

instance : DecidableRel newerFirst :=
  fun a b => Nat.decLe b.createdAt a.createdAt

instance : IsTotal Tweet newerFirst :=
  ⟨fun a b => Nat.le_total b.createdAt a.createdAt⟩

instance : IsTrans Tweet newerFirst :=
  ⟨fun _ _ _ hab hbc => le_trans hbc hab⟩

/-- Sorting a tweet list newest first. -/
def sortTweets (l : List Tweet) : List Tweet :=
  l.insertionSort newerFirst

/-- Lower-casing a string, for the case-insensitive regex option i. -/
def lowerStr (s : String) : String :=
  String.mk (s.data.map Char.toLower)

/-- Whether the first character list occurs as a prefix of the second. -/
def isPrefixCL : List Char → List Char → Bool
  | [], _ => true
  | _ :: _, [] => false
  | p :: ps, c :: cs => p == c && isPrefixCL ps cs

/-- Whether the first character list occurs contiguously inside the
second. -/
def isInfixCL (p : List Char) : List Char → Bool
  | [] => isPrefixCL p []
  | c :: cs => isPrefixCL p (c :: cs) || isInfixCL p cs

/-- The store query { field: { $regex: q, $options: i } }, at the level
the repository uses it: the handlers pass the raw query text as the
pattern, and for a pattern free of regex metacharacters the unanchored
match is exactly case-insensitive substring containment, which is how we
model the external operator. -/
def ciContains (hay q : String) : Bool :=
  isInfixCL (lowerStr q).data (lowerStr hay).data

/-- JavaScript parseInt on a string (radix 10): skip leading whitespace,
accept an optional sign, then read the leading run of decimal digits;
none models NaN (no digits). -/
def digitsVal : List Char → Nat → Nat
  | [], acc => acc
  | c :: cs, acc => digitsVal cs (acc * 10 + (c.toNat - '0'.toNat))

/-- The leading run of decimal digits of a character list. -/
def leadingDigits : List Char → List Char
  | [] => []
  | c :: cs => if c.isDigit then c :: leadingDigits cs else []

/-- parseInt proper, on the character list after whitespace stripping. -/
def jsParseIntCore (cs : List Char) : Option Int :=
  match cs with
  | '-' :: rest =>
    match leadingDigits rest with
    | [] => none
    | ds => some (-(digitsVal ds 0 : Int))
  | '+' :: rest =>
    match leadingDigits rest with
    | [] => none
    | ds => some (digitsVal ds 0 : Int)
  | _ =>
    match leadingDigits cs with
    | [] => none
    | ds => some (digitsVal ds 0 : Int)

/-- JavaScript parseInt on a string; none is NaN. -/
def jsParseInt (s : String) : Option Int :=
  jsParseIntCore (s.data.dropWhile (fun c => c == ' ' || c == '\t' || c == '\n' || c == '\r'))

/-- The timeline page computation parseInt(req.query.page) || 1: an
absent parameter gives parseInt(undefined) = NaN, a digit-free string
gives NaN, and both NaN and 0 are falsy, so they all fall back to 1. -/
def pageOf (q : Option String) : Int :=
  match q with
  | none => 1
  | some s =>
    match jsParseInt s with
    | none => 1
    | some 0 => 1
    | some n => n

/-- POST /tweets (create a tweet). The express-validator chain rejects
empty content with 400. Otherwise a new Tweet document is built with the
caller as owner, the given content, the uploaded image path when a file
came with the request, and schema defaults (empty likes and retweets, no
parent, isReply false); it is saved and returned. The fresh document id
and timestamp are passed in explicitly. -/
def createTweet (db : DB) (reqUser : User) (content : String)
    (file : Option String) (nid : String) (now : Nat) : Resp Tweet × DB :=
  if content == "" then (.badRequest, db)
  else
    let t : Tweet :=
      { id := nid, user := reqUser.id, content := content,
        image := file.map (fun f => "/uploads/" ++ f),
        likes := [], retweets := [], parent := none, isReply := false,
        createdAt := now }
    (.ok t, { db with tweets := db.tweets ++ [t] })

/-- The timeline eligibility filter of GET /tweets: owner among the users
the caller follows or the caller, or the caller among the retweeters, and
not a reply. -/
def timelineEligible (reqUser : User) (t : Tweet) : Bool :=
  (reqUser.following.contains t.user || t.user == reqUser.id
    || t.retweets.contains reqUser.id)
  && t.isReply == false

/-- The sorted eligible tweet list the timeline pages over. -/
def timelineSorted (db : DB) (reqUser : User) : List Tweet :=
  sortTweets (db.tweets.filter (timelineEligible reqUser))

/-- GET /tweets (timeline): page := parseInt(query.page) || 1, limit 10,
skip (page-1)*10; the eligible tweets, newest first, sliced by skip and
limit. The store rejects a negative skip, which surfaces as the generic
500 branch of the catch. -/
def getTimeline (db : DB) (reqUser : User) (pageQ : Option String) :
    Resp (List Tweet) :=
  let page := pageOf pageQ
  let skip := (page - 1) * 10
  if skip < 0 then .serverError
  else .ok (((timelineSorted db reqUser).drop skip.toNat).take 10)

/-- GET /tweets/:id: 404 when the id is malformed (CastError caught with
kind ObjectId) or when no tweet has that id; otherwise the tweet (its
user and parent expansions are response shaping over the same record). -/
def getTweetById (db : DB) (tid : String) : Resp Tweet :=
  match findTweetById db tid with
  | .error _ => .notFound
  | .ok none => .notFound
  | .ok (some t) => .ok t

/-- DELETE /tweets/:id: 404 for a malformed or unknown id, 401 when the
caller does not own the tweet, otherwise the document is removed and a
200 message returned. Only the tweet itself is deleted; nothing cascades. -/
def deleteTweet (db : DB) (callerId tid : String) : Resp String × DB :=
  match findTweetById db tid with
  | .error _ => (.notFound, db)
  | .ok none => (.notFound, db)
  | .ok (some t) =>
    if t.user != callerId then (.unauthorized, db)
    else (.ok "Tweet removed",
      { db with tweets := db.tweets.filter (fun x => x.id != tid) })

/-- POST /tweets/:id/like: 404 for a malformed or unknown id; otherwise
isLiked := likes.includes(caller); when liked the caller id is filtered
out of the likes array, when not it is unshifted at the front; the tweet
is saved and { isLiked: !isLiked, userId } returned. -/
def likeTweet (db : DB) (userId tid : String) : Resp (Bool × String) × DB :=
  match findTweetById db tid with
  | .error _ => (.notFound, db)
  | .ok none => (.notFound, db)
  | .ok (some t) =>
    let isLiked := t.likes.contains userId
    let t' :=
      if isLiked then { t with likes := t.likes.filter (fun x => x != userId) }
      else { t with likes := userId :: t.likes }
    (.ok (!isLiked, userId), updateTweet db t')

/-- POST /tweets/:id/retweet: the same code as the like handler with the
retweets array in place of the likes array and the isRetweeted flag in
place of isLiked. -/
def retweetTweet (db : DB) (userId tid : String) : Resp (Bool × String) × DB :=
  match findTweetById db tid with
  | .error _ => (.notFound, db)
  | .ok none => (.notFound, db)
  | .ok (some t) =>
    let isRetweeted := t.retweets.contains userId
    let t' :=
      if isRetweeted then { t with retweets := t.retweets.filter (fun x => x != userId) }
      else { t with retweets := userId :: t.retweets }
    (.ok (!isRetweeted, userId), updateTweet db t')

/-- POST /tweets/:id/reply: 400 for empty content (validator), then 404
for a malformed or unknown parent id; otherwise a new Tweet with parent
set to the path id and isReply true is saved and returned. -/
def replyTweet (db : DB) (reqUser : User) (tid : String) (content : String)
    (file : Option String) (nid : String) (now : Nat) : Resp Tweet × DB :=
  if content == "" then (.badRequest, db)
  else
    match findTweetById db tid with
    | .error _ => (.notFound, db)
    | .ok none => (.notFound, db)
    | .ok (some _) =>
      let t : Tweet :=
        { id := nid, user := reqUser.id, content := content,
          image := file.map (fun f => "/uploads/" ++ f),
          likes := [], retweets := [], parent := some tid, isReply := true,
          createdAt := now }
      (.ok t, { db with tweets := db.tweets ++ [t] })

/-- GET /tweets/:id/replies: the tweets whose parent is the given id and
whose reply flag is set, newest first; a malformed id makes the query
throw a CastError, caught as 404. -/
def getReplies (db : DB) (tid : String) : Resp (List Tweet) :=
  if validObjectId tid then
    .ok (sortTweets (db.tweets.filter
      (fun t => t.parent == some tid && t.isReply == true)))
  else .notFound

/-- GET /tweets/user/:userId: the non-reply tweets owned by the given
user id, newest first; a malformed id is caught as 404. -/
def getTweetsByUser (db : DB) (uid : String) : Resp (List Tweet) :=
  if validObjectId uid then
    .ok (sortTweets (db.tweets.filter
      (fun t => t.user == uid && t.isReply == false)))
  else .notFound

/-- A user record with the password stripped, the shape returned by the
profile update (select minus password). -/
structure UserNoPass where
  id : String
  name : String
  username : String
  email : String
  bio : String
  location : String
  website : String
  profileImage : String
  coverImage : String
  followers : List String
  following : List String
deriving Repr, DecidableEq

/-- Dropping the password field of a user record. -/
def stripPassword (u : User) : UserNoPass :=
  { id := u.id, name := u.name, username := u.username, email := u.email,
    bio := u.bio, location := u.location, website := u.website,
    profileImage := u.profileImage, coverImage := u.coverImage,
    followers := u.followers, following := u.following }

/-- A user record with both password and email stripped, the shape the
search results use (select minus password minus email). -/
structure PublicUser where
  id : String
  name : String
  username : String
  bio : String
  location : String
  website : String
  profileImage : String
  coverImage : String
  followers : List String
  following : List String
deriving Repr, DecidableEq

/-- Dropping password and email of a user record. -/
def publicUser (u : User) : PublicUser :=
  { id := u.id, name := u.name, username := u.username,
    bio := u.bio, location := u.location, website := u.website,
    profileImage := u.profileImage, coverImage := u.coverImage,
    followers := u.followers, following := u.following }

/-- The body of PUT /users/me: the four recognized optional fields plus
whatever else the client sent, which the handler never reads. A field
bound to some empty string models a present-but-falsy JS value. -/
structure ProfileBody where
  name : Option String
  bio : Option String
  location : Option String
  website : Option String
  extra : List (String × String)
deriving Repr, DecidableEq

/-- One field of the userFields object: if (v) userFields.f = v, so a
missing or falsy (empty) value leaves the stored field alone. -/
def applyField (v : Option String) (old : String) : String :=
  match v with
  | none => old
  | some s => if s == "" then old else s

/-- The $set document the update handler builds, applied to a stored
user record. -/
def applyProfile (b : ProfileBody) (u : User) : User :=
  { u with
    name := applyField b.name u.name,
    bio := applyField b.bio u.bio,
    location := applyField b.location u.location,
    website := applyField b.website u.website }

/-- PUT /users/me: findByIdAndUpdate of the caller with the $set fields,
returning the new document with the password deselected (null when the
caller record is gone, which json-serialises as a 200 with null body). -/
def updateMe (db : DB) (reqUser : User) (b : ProfileBody) :
    Resp (Option UserNoPass) × DB :=
  let db' := updateUserById db reqUser.id (applyProfile b)
  (.ok ((db'.users.find? (fun x => x.id == reqUser.id)).map stripPassword), db')

/-- POST /users/:id/follow: 400 when the target is the caller; then
User.findById of the target, whose CastError on a malformed id is NOT
filtered in this catch branch and therefore surfaces as 500; 404 when no
such user; otherwise a toggle driven by caller.following.includes(target):
either $pull of the target from the caller following array and of the
caller from the target followers array, or $addToSet of both, two
sequential updates, answering { isFollowing, userId }. -/
def followUser (db : DB) (reqUser : User) (targetId : String) :
    Resp (Bool × String) × DB :=
  if targetId == reqUser.id then (.badRequest, db)
  else
    match findUserById db targetId with
    | .error _ => (.serverError, db)
    | .ok none => (.notFound, db)
    | .ok (some _) =>
      let isFollowing := reqUser.following.contains targetId
      if isFollowing then
        let db1 := updateUserById db reqUser.id
          (fun u => { u with following := pullId u.following targetId })
        let db2 := updateUserById db1 targetId
          (fun u => { u with followers := pullId u.followers reqUser.id })
        (.ok (false, reqUser.id), db2)
      else
        let db1 := updateUserById db reqUser.id
          (fun u => { u with following := addToSet u.following targetId })
        let db2 := updateUserById db1 targetId
          (fun u => { u with followers := addToSet u.followers reqUser.id })
        (.ok (true, reqUser.id), db2)

/-- Whether a user matches the search query: name or username contains
it case-insensitively. -/
def userMatches (q : String) (u : User) : Bool :=
  ciContains u.name q || ciContains u.username q

/-- GET /search: 400 when q is missing or empty (falsy); otherwise up to
10 matching users (password and email deselected, store order) and up to
20 tweets whose content matches, newest first, returned together. -/
def search (db : DB) (q : Option String) :
    Resp (List PublicUser × List Tweet) :=
  match q with
  | none => .badRequest
  | some qs =>
    if qs == "" then .badRequest
    else
      .ok (((db.users.filter (userMatches qs)).take 10).map publicUser,
        (sortTweets (db.tweets.filter (fun t => ciContains t.content qs))).take 20)

/-! Helper lemmas about the store primitives. -/

/-- Replacing every element whose id matches by a fixed document makes a
lookup of that id return the document, provided some element had the id. -/
theorem find?_replace_list (l : List Tweet) (t' : Tweet)
    (h : (l.find? (fun x => x.id == t'.id)).isSome = true) :
    (l.map (fun x => if x.id == t'.id then t' else x)).find?
      (fun x => x.id == t'.id) = some t' := by
  induction l with
  | nil => simp [List.find?] at h
  | cons a l ih =>
    by_cases ha : a.id == t'.id
    · simp [List.find?, ha]
    · simp only [List.map_cons, if_neg ha]
      rw [List.find?_cons_of_neg _ (by simpa using ha)]
      apply ih
      rw [List.find?_cons_of_neg _ (by simpa using ha)] at h
      exact h

/-- An id-preserving pointwise update moves through a lookup of the
updated id. -/
theorem find?_updateById_list (l : List User) (uid : String) (f : User → User)
    (hf : ∀ v, (f v).id = v.id) :
    (l.map (fun x => if x.id == uid then f x else x)).find?
      (fun x => x.id == uid) = (l.find? (fun x => x.id == uid)).map f := by
  induction l with
  | nil => simp
  | cons a l ih =>
    by_cases ha : (a.id == uid) = true
    · have hfa : ((f a).id == uid) = true := by
        have h2 : a.id = uid := by simpa using ha
        simp [hf, h2]
      simp [List.find?, ha, hfa]
    · have ha' : (a.id == uid) = false := by simpa using ha
      rw [List.map_cons, if_neg ha]
      simp only [List.find?, ha']
      exact ih

/-- An id-preserving pointwise update at one id leaves a lookup of any
other id unchanged. -/
theorem find?_updateById_ne_list (l : List User) (uid tid : String)
    (f : User → User) (hf : ∀ v, (f v).id = v.id) (hne : tid ≠ uid) :
    (l.map (fun x => if x.id == uid then f x else x)).find?
      (fun x => x.id == tid) = l.find? (fun x => x.id == tid) := by
  induction l with
  | nil => simp
  | cons a l ih =>
    by_cases ha : (a.id == uid) = true
    · have haeq : a.id = uid := by simpa using ha
      have hfa : ((f a).id == tid) = false := by
        simp [hf, haeq, Ne.symm hne]
      have hat : (a.id == tid) = false := by simp [haeq, Ne.symm hne]
      simp only [List.map_cons, if_pos ha, List.find?, hfa, hat]
      exact ih
    · simp only [List.map_cons, if_neg ha]
      by_cases hat : (a.id == tid) = true
      · simp only [List.find?, hat]
      · have hat' : (a.id == tid) = false := by simpa using hat
        simp only [List.find?, hat']
        exact ih

/-- Filtering out a value that is not in the list changes nothing. -/
theorem filter_ne_of_not_contains (l : List String) (x : String)
    (h : l.contains x = false) :
    l.filter (fun y => y != x) = l := by
  rw [List.filter_eq_self]
  intro a ha
  have : a ≠ x := by
    rintro rfl
    rw [List.contains_eq_any_beq] at h
    simp [List.any_eq_true] at h
    exact h a ha rfl
  simpa using this

/-- After filtering a value out, the value is no longer contained. -/
theorem contains_filter_ne (l : List String) (x : String) :
    (l.filter (fun y => y != x)).contains x = false := by
  rw [List.contains_eq_any_beq]
  simp [List.any_eq_true, List.mem_filter]
  intro a _ hax
  rintro rfl
  simp at hax

/-- A lookup over a filter that excludes the id finds nothing. -/
theorem find?_filter_ne_id (l : List Tweet) (tid : String) :
    (l.filter (fun x => x.id != tid)).find? (fun x => x.id == tid) = none := by
  rw [List.find?_eq_none]
  intro x hx
  have := (List.mem_filter.mp hx).2
  simpa using this

/-- sortTweets is a permutation of its input. -/
theorem sortTweets_perm (l : List Tweet) : (sortTweets l).Perm l :=
  List.perm_insertionSort newerFirst l

/-- sortTweets output is pairwise newest-first. -/
theorem sortTweets_sorted (l : List Tweet) :
    (sortTweets l).Pairwise (fun a b => b.createdAt ≤ a.createdAt) :=
  List.sorted_insertionSort newerFirst l

/-- Membership in sortTweets is membership in the input. -/
theorem mem_sortTweets (l : List Tweet) (t : Tweet) :
    t ∈ sortTweets l ↔ t ∈ l :=
  (sortTweets_perm l).mem_iff

/-- $addToSet applied twice with the same value is the same as once. -/
theorem addToSet_idem (l : List String) (x : String) :
    addToSet (addToSet l x) x = addToSet l x := by
  by_cases h : l.contains x = true
  · have h1 : addToSet l x = l := by rw [addToSet, if_pos h]
    rw [h1, h1]
  · have h' : l.contains x = false := by simpa using h
    have h1 : addToSet l x = l ++ [x] := by
      rw [addToSet, h']
      simp
    have h2 : (l ++ [x]).contains x = true := by
      rw [List.contains_eq_any_beq]
      simp
    rw [h1, addToSet, if_pos h2]

/-- $addToSet of an absent value yields exactly one occurrence. -/
theorem count_addToSet_of_not_contains (l : List String) (x : String)
    (h : l.contains x = false) :
    (addToSet l x).count x = 1 := by
  unfold addToSet
  simp only [h, Bool.false_eq_true, if_false]
  rw [List.count_append]
  have hx : x ∉ l := by
    intro hm
    rw [List.contains_eq_any_beq] at h
    simp [List.any_eq_true] at h
    exact h x hm rfl
  rw [List.count_eq_zero.mpr hx]
  simp [List.count_singleton]

/-! Sample records used to instantiate the theorems on concrete inputs. -/

/-- A sample user. -/
def uAlice : User :=
  { id := "aaaaaaaaaaaaaaaaaaaaaaaa", name := "Alice", username := "alice",
    email := "alice@example.com", password := "hash1", bio := "hi",
    location := "NY", website := "w", profileImage := "", coverImage := "",
    followers := [], following := [] }

/-- Another sample user. -/
def uBob : User :=
  { id := "bbbbbbbbbbbbbbbbbbbbbbbb", name := "Bob", username := "bob",
    email := "bob@example.com", password := "hash2", bio := "",
    location := "", website := "", profileImage := "", coverImage := "",
    followers := [], following := [] }

/-- A sample tweet owned by Alice. -/
def tHello : Tweet :=
  { id := "cccccccccccccccccccccccc", user := "aaaaaaaaaaaaaaaaaaaaaaaa",
    content := "hello world", image := none, likes := [], retweets := [],
    parent := none, isReply := false, createdAt := 5 }

/-- A sample store holding the two users and the tweet. -/
def dbSample : DB := { users := [uAlice, uBob], tweets := [tHello] }

/-- Saving an id-preserving modification of a stored tweet makes the
lookup of that id return the modified document. -/
theorem find?_updateTweet (db : DB) (t' : Tweet) (tid : String)
    (hid : t'.id = tid)
    (h : (db.tweets.find? (fun x => x.id == tid)).isSome = true) :
    (updateTweet db t').tweets.find? (fun x => x.id == tid) = some t' := by
  subst hid
  show (db.tweets.map (fun x => if x.id == t'.id then t' else x)).find?
      (fun x => x.id == t'.id) = some t'
  exact find?_replace_list db.tweets t' h

/-- A single like call on a stored tweet, in closed form. -/
theorem likeTweet_step (db : DB) (u tid : String) (t : Tweet)
    (hv : validObjectId tid = true)
    (ht : db.tweets.find? (fun x => x.id == tid) = some t) :
    likeTweet db u tid
      = (.ok (!(t.likes.contains u), u),
         updateTweet db (if t.likes.contains u
             then { t with likes := t.likes.filter (fun x => x != u) }
             else { t with likes := u :: t.likes })) := by
  have hfind : findTweetById db tid = .ok (some t) := by
    simp [findTweetById, hv, ht]
  simp only [likeTweet, hfind]

/-- C1: for an authenticated user u and an existing tweet t, the like
handler toggles membership of u in the likes list of t — inserted at the
front when absent, removed when present — and answers the new membership
state together with u; starting from a state where u has not liked t,
liking twice restores the stored tweet record exactly. -/
theorem like_toggle_pair (db : DB) (t : Tweet) (u : String)
    (hv : validObjectId t.id = true)
    (ht : db.tweets.find? (fun x => x.id == t.id) = some t) :
    (likeTweet db u t.id).1 = Resp.ok (!(t.likes.contains u), u)
    ∧ ((likeTweet db u t.id).2.tweets.find? (fun x => x.id == t.id)
        = some (if t.likes.contains u
            then { t with likes := t.likes.filter (fun x => x != u) }
            else { t with likes := u :: t.likes }))
    ∧ (∀ t₁, (likeTweet db u t.id).2.tweets.find? (fun x => x.id == t.id)
          = some t₁ → t₁.likes.contains u = !(t.likes.contains u))
    ∧ (t.likes.contains u = false →
        (likeTweet (likeTweet db u t.id).2 u t.id).2.tweets.find?
          (fun x => x.id == t.id) = some t) := by
  have hstep := likeTweet_step db u t.id t hv ht
  have hsome : (db.tweets.find? (fun x => x.id == t.id)).isSome = true := by
    simp [ht]
  have hfind2 : (likeTweet db u t.id).2.tweets.find? (fun x => x.id == t.id)
      = some (if t.likes.contains u
          then { t with likes := t.likes.filter (fun x => x != u) }
          else { t with likes := u :: t.likes }) := by
    rw [hstep]
    exact find?_updateTweet db _ t.id (by split <;> rfl) hsome
  refine ⟨by rw [hstep], hfind2, ?_, ?_⟩
  · intro t₁ h1
    rw [hfind2] at h1
    cases h1
    by_cases hC : t.likes.contains u = true
    · simp only [hC, if_true, Bool.not_true]
      exact contains_filter_ne t.likes u
    · have hC' : t.likes.contains u = false := by simpa using hC
      simp only [hC', Bool.false_eq_true, if_false, Bool.not_false]
      simp [List.contains_eq_any_beq]
  · intro hC'
    have hBc : ((u :: t.likes).contains u) = true := by
      simp [List.contains_eq_any_beq]
    have hfind2' : (likeTweet db u t.id).2.tweets.find? (fun x => x.id == t.id)
        = some { t with likes := u :: t.likes } := by
      rw [hfind2, hC']
      simp
    have hstep2 := likeTweet_step (likeTweet db u t.id).2 u t.id
      { t with likes := u :: t.likes } hv hfind2'
    rw [hstep2]
    have hfilter : (u :: t.likes).filter (fun x => x != u) = t.likes := by
      have h1 := filter_ne_of_not_contains t.likes u hC'
      simp [List.filter, h1]
    have hXt : (if ({ t with likes := u :: t.likes } : Tweet).likes.contains u
        then { ({ t with likes := u :: t.likes } : Tweet) with
                 likes := ({ t with likes := u :: t.likes } : Tweet).likes.filter
                   (fun x => x != u) }
        else { ({ t with likes := u :: t.likes } : Tweet) with
                 likes := u :: ({ t with likes := u :: t.likes } : Tweet).likes })
        = t := by
      simp only [hBc, if_true]
      rw [show ({ t with likes := u :: t.likes } : Tweet).likes.filter
          (fun x => x != u) = t.likes from hfilter]
    rw [hXt]
    have hsome2 : ((likeTweet db u t.id).2.tweets.find?
        (fun x => x.id == t.id)).isSome = true := by
      simp [hfind2']
    exact find?_updateTweet (likeTweet db u t.id).2 t t.id rfl hsome2

/-- C1 witness: Bob likes the sample tweet twice; the first call answers
isLiked true, the store then holds Bob at the front of the likes, and
the second call restores the original record. -/
theorem like_toggle_pair_witness :
    (likeTweet dbSample "bbbbbbbbbbbbbbbbbbbbbbbb" tHello.id).1
        = Resp.ok (true, "bbbbbbbbbbbbbbbbbbbbbbbb")
    ∧ ((likeTweet dbSample "bbbbbbbbbbbbbbbbbbbbbbbb" tHello.id).2.tweets.find?
          (fun x => x.id == tHello.id)
        = some { tHello with likes := ["bbbbbbbbbbbbbbbbbbbbbbbb"] })
    ∧ ((likeTweet (likeTweet dbSample "bbbbbbbbbbbbbbbbbbbbbbbb" tHello.id).2
          "bbbbbbbbbbbbbbbbbbbbbbbb" tHello.id).2.tweets.find?
          (fun x => x.id == tHello.id) = some tHello) := by
  have h := like_toggle_pair dbSample tHello "bbbbbbbbbbbbbbbbbbbbbbbb"
    (by decide) (by decide)
  refine ⟨?_, ?_, h.2.2.2 (by decide)⟩
  · have := h.1
    simpa using this
  · have := h.2.1
    simpa using this

/-- Exchanging the likes and retweets arrays of a tweet document. -/
def swapTweet (t : Tweet) : Tweet :=
  { t with likes := t.retweets, retweets := t.likes }

/-- Exchanging likes and retweets across the whole store. -/
def swapDB (db : DB) : DB :=
  { db with tweets := db.tweets.map swapTweet }

/-- The swap is an involution on documents. -/
theorem swapTweet_swapTweet (t : Tweet) : swapTweet (swapTweet t) = t := rfl

/-- The swap is an involution on stores. -/
theorem swapDB_swapDB (db : DB) : swapDB (swapDB db) = db := by
  show DB.mk db.users ((db.tweets.map swapTweet).map swapTweet) = db
  rw [List.map_map]
  have hid : swapTweet ∘ swapTweet = id := funext (fun t => rfl)
  rw [hid, List.map_id]

/-- Lookups commute with the swap. -/
theorem find?_map_swap (l : List Tweet) (tid : String) :
    (l.map swapTweet).find? (fun x => x.id == tid)
      = (l.find? (fun x => x.id == tid)).map swapTweet := by
  induction l with
  | nil => simp
  | cons a l ih =>
    by_cases ha : (a.id == tid) = true
    · have ha2 : ((swapTweet a).id == tid) = true := ha
      simp [List.find?, ha, ha2]
    · have ha' : (a.id == tid) = false := by simpa using ha
      have ha2 : ((swapTweet a).id == tid) = false := ha'
      simp only [List.map_cons, List.find?, ha', ha2]
      exact ih

/-- Replacing a document inside the swapped store and swapping back is
replacing the swapped document in the original store. -/
theorem map_swap_update_list (l : List Tweet) (s : Tweet) :
    ((l.map swapTweet).map (fun x => if x.id == s.id then s else x)).map swapTweet
      = l.map (fun x => if x.id == (swapTweet s).id then swapTweet s else x) := by
  induction l with
  | nil => rfl
  | cons a l ih =>
    by_cases ha : (a.id == s.id) = true
    · have ha2 : ((swapTweet a).id == s.id) = true := ha
      have ha3 : (a.id == (swapTweet s).id) = true := ha
      simp only [List.map_cons, if_pos ha2, if_pos ha3]
      rw [ih]
    · have ha' : ¬ ((swapTweet a).id == s.id) = true := ha
      have ha3 : ¬ (a.id == (swapTweet s).id) = true := ha
      simp only [List.map_cons, if_neg ha', if_neg ha3]
      rw [ih, swapTweet_swapTweet]

/-- Store-level version of the previous lemma. -/
theorem swapDB_update (db : DB) (s : Tweet) :
    swapDB (updateTweet (swapDB db) s) = updateTweet db (swapTweet s) := by
  show DB.mk db.users (((db.tweets.map swapTweet).map
        (fun x => if x.id == s.id then s else x)).map swapTweet)
    = DB.mk db.users (db.tweets.map
        (fun x => if x.id == (swapTweet s).id then swapTweet s else x))
  rw [map_swap_update_list]

/-- A single retweet call on a stored tweet, in closed form. -/
theorem retweetTweet_step (db : DB) (u tid : String) (t : Tweet)
    (hv : validObjectId tid = true)
    (ht : db.tweets.find? (fun x => x.id == tid) = some t) :
    retweetTweet db u tid
      = (.ok (!(t.retweets.contains u), u),
         updateTweet db (if t.retweets.contains u
             then { t with retweets := t.retweets.filter (fun x => x != u) }
             else { t with retweets := u :: t.retweets })) := by
  have hfind : findTweetById db tid = .ok (some t) := by
    simp [findTweetById, hv, ht]
  simp only [retweetTweet, hfind]

/-- C9: the retweet handler computes exactly the like handler with the
retweets array in place of the likes array: running it on any store is
running the like handler on the likes-retweets-swapped store and swapping
back, with the same response payload. -/
theorem retweet_equals_like_on_swapped (db : DB) (u tid : String) :
    retweetTweet db u tid
      = ((likeTweet (swapDB db) u tid).1,
         swapDB (likeTweet (swapDB db) u tid).2) := by
  by_cases hv : validObjectId tid = true
  · cases h : db.tweets.find? (fun x => x.id == tid) with
    | none =>
      have h2 : (swapDB db).tweets.find? (fun x => x.id == tid) = none := by
        show (db.tweets.map swapTweet).find? (fun x => x.id == tid) = none
        rw [find?_map_swap, h]
        rfl
      have hr : retweetTweet db u tid = (.notFound, db) := by
        simp [retweetTweet, findTweetById, hv, h]
      have hl : likeTweet (swapDB db) u tid = (.notFound, swapDB db) := by
        simp [likeTweet, findTweetById, hv, h2]
      rw [hr, hl]
      rw [show ((Resp.notFound : Resp (Bool × String)), swapDB db).2 = swapDB db from rfl,
        swapDB_swapDB]
    | some t =>
      have h2 : (swapDB db).tweets.find? (fun x => x.id == tid)
          = some (swapTweet t) := by
        show (db.tweets.map swapTweet).find? (fun x => x.id == tid)
          = some (swapTweet t)
        rw [find?_map_swap, h]
        rfl
      have hr := retweetTweet_step db u tid t hv h
      have hl := likeTweet_step (swapDB db) u tid (swapTweet t) hv h2
      rw [hr, hl]
      refine Prod.ext ?_ ?_
      · rfl
      · show updateTweet db _
          = swapDB (updateTweet (swapDB db)
              (if (swapTweet t).likes.contains u
                then { (swapTweet t) with
                    likes := (swapTweet t).likes.filter (fun x => x != u) }
                else { (swapTweet t) with likes := u :: (swapTweet t).likes }))
        rw [swapDB_update]
        congr 1
        by_cases hRc : (t.retweets.contains u) = true
        · have hLc : ((swapTweet t).likes.contains u) = true := hRc
          rw [if_pos hRc, if_pos hLc]
          rfl
        · have hLc : ¬ ((swapTweet t).likes.contains u) = true := hRc
          rw [if_neg hRc, if_neg hLc]
          rfl
  · have hv' : validObjectId tid = false := by simpa using hv
    have hr : retweetTweet db u tid = (.notFound, db) := by
      simp [retweetTweet, findTweetById, hv']
    have hl : likeTweet (swapDB db) u tid = (.notFound, swapDB db) := by
      simp [likeTweet, findTweetById, hv']
    rw [hr, hl]
    rw [show ((Resp.notFound : Resp (Bool × String)), swapDB db).2 = swapDB db from rfl,
      swapDB_swapDB]

/-- C2: the follow handler rejects self-follow with 400, answers 404
when the target id resolves to no user, and otherwise toggles the
relationship symmetrically: when the caller is not following the target,
the target id is $addToSet-added to the caller following list and the
caller id to the target followers list (so a repeated addition never
duplicates — addToSet is idempotent); when already following, both ids
are $pull-removed from the two lists. -/
theorem follow_toggle_symmetric (db : DB) (c tu : User) (t : String) :
    (followUser db c c.id = (.badRequest, db)
      ∧ (followUser db c c.id).1.status = 400)
    ∧ (t ≠ c.id → validObjectId t = true →
        db.users.find? (fun x => x.id == t) = none →
        followUser db c t = (.notFound, db))
    ∧ (t ≠ c.id → validObjectId t = true →
        db.users.find? (fun x => x.id == t) = some tu →
        db.users.find? (fun x => x.id == c.id) = some c →
        ((c.following.contains t = false →
            (followUser db c t).1 = .ok (true, c.id)
            ∧ (followUser db c t).2.users.find? (fun x => x.id == c.id)
                = some { c with following := addToSet c.following t }
            ∧ (followUser db c t).2.users.find? (fun x => x.id == t)
                = some { tu with followers := addToSet tu.followers c.id }
            ∧ (addToSet c.following t).count t = 1
            ∧ (tu.followers.contains c.id = false →
                (addToSet tu.followers c.id).count c.id = 1))
          ∧ (c.following.contains t = true →
            (followUser db c t).1 = .ok (false, c.id)
            ∧ (followUser db c t).2.users.find? (fun x => x.id == c.id)
                = some { c with following := pullId c.following t }
            ∧ (followUser db c t).2.users.find? (fun x => x.id == t)
                = some { tu with followers := pullId tu.followers c.id }
            ∧ (pullId c.following t).contains t = false
            ∧ (pullId tu.followers c.id).contains c.id = false)))
    ∧ (∀ (l : List String) (x : String),
        addToSet (addToSet l x) x = addToSet l x) := by
  refine ⟨⟨by simp [followUser], by simp [followUser, Resp.status]⟩, ?_, ?_,
    addToSet_idem⟩
  · intro hne hv hnone
    have hfindU : findUserById db t = .ok none := by
      simp [findUserById, hv, hnone]
    simp [followUser, hne, hfindU]
  · intro hne hv htu hc
    have hfindU : findUserById db t = .ok (some tu) := by
      simp [findUserById, hv, htu]
    constructor
    · intro hnf
      have hm : ¬ t ∈ c.following := by simpa using hnf
      have hstep : followUser db c t
          = (.ok (true, c.id),
             updateUserById (updateUserById db c.id
                 (fun u => { u with following := addToSet u.following t })) t
               (fun u => { u with followers := addToSet u.followers c.id })) := by
        simp [followUser, hne, hfindU, hm]
      refine ⟨by rw [hstep], ?_, ?_,
        count_addToSet_of_not_contains c.following t hnf,
        fun h => count_addToSet_of_not_contains tu.followers c.id h⟩
      · rw [hstep]
        show (((updateUserById db c.id
              (fun u => { u with following := addToSet u.following t })).users.map
            (fun x => if x.id == t
              then { x with followers := addToSet x.followers c.id } else x)).find?
            (fun x => x.id == c.id))
          = some { c with following := addToSet c.following t }
        rw [find?_updateById_ne_list _ t c.id
          (fun x => { x with followers := addToSet x.followers c.id })
          (fun v => rfl) (Ne.symm hne)]
        show ((db.users.map (fun x => if x.id == c.id
            then { x with following := addToSet x.following t } else x)).find?
            (fun x => x.id == c.id))
          = some { c with following := addToSet c.following t }
        rw [find?_updateById_list _ c.id
          (fun x => { x with following := addToSet x.following t })
          (fun v => rfl), hc]
        rfl
      · rw [hstep]
        show (((updateUserById db c.id
              (fun u => { u with following := addToSet u.following t })).users.map
            (fun x => if x.id == t
              then { x with followers := addToSet x.followers c.id } else x)).find?
            (fun x => x.id == t))
          = some { tu with followers := addToSet tu.followers c.id }
        rw [find?_updateById_list _ t
          (fun x => { x with followers := addToSet x.followers c.id })
          (fun v => rfl)]
        show ((db.users.map (fun x => if x.id == c.id
              then { x with following := addToSet x.following t } else x)).find?
            (fun x => x.id == t)).map
            (fun x => { x with followers := addToSet x.followers c.id })
          = some { tu with followers := addToSet tu.followers c.id }
        rw [find?_updateById_ne_list _ c.id t
          (fun x => { x with following := addToSet x.following t })
          (fun v => rfl) hne, htu]
        rfl
    · intro hf
      have hm : t ∈ c.following := by simpa using hf
      have hstep : followUser db c t
          = (.ok (false, c.id),
             updateUserById (updateUserById db c.id
                 (fun u => { u with following := pullId u.following t })) t
               (fun u => { u with followers := pullId u.followers c.id })) := by
        simp [followUser, hne, hfindU, hm]
      refine ⟨by rw [hstep], ?_, ?_,
        contains_filter_ne c.following t,
        contains_filter_ne tu.followers c.id⟩
      · rw [hstep]
        show (((updateUserById db c.id
              (fun u => { u with following := pullId u.following t })).users.map
            (fun x => if x.id == t
              then { x with followers := pullId x.followers c.id } else x)).find?
            (fun x => x.id == c.id))
          = some { c with following := pullId c.following t }
        rw [find?_updateById_ne_list _ t c.id
          (fun x => { x with followers := pullId x.followers c.id })
          (fun v => rfl) (Ne.symm hne)]
        show ((db.users.map (fun x => if x.id == c.id
            then { x with following := pullId x.following t } else x)).find?
            (fun x => x.id == c.id))
          = some { c with following := pullId c.following t }
        rw [find?_updateById_list _ c.id
          (fun x => { x with following := pullId x.following t })
          (fun v => rfl), hc]
        rfl
      · rw [hstep]
        show (((updateUserById db c.id
              (fun u => { u with following := pullId u.following t })).users.map
            (fun x => if x.id == t
              then { x with followers := pullId x.followers c.id } else x)).find?
            (fun x => x.id == t))
          = some { tu with followers := pullId tu.followers c.id }
        rw [find?_updateById_list _ t
          (fun x => { x with followers := pullId x.followers c.id })
          (fun v => rfl)]
        show ((db.users.map (fun x => if x.id == c.id
              then { x with following := pullId x.following t } else x)).find?
            (fun x => x.id == t)).map
            (fun x => { x with followers := pullId x.followers c.id })
          = some { tu with followers := pullId tu.followers c.id }
        rw [find?_updateById_ne_list _ c.id t
          (fun x => { x with following := pullId x.following t })
          (fun v => rfl) hne, htu]
        rfl

/-- C2 witness: Alice follows Bob in the sample store; the relationship
is recorded symmetrically, and following is not a self-follow nor a
miss. -/
theorem follow_toggle_symmetric_witness :
    (followUser dbSample uAlice uAlice.id).1.status = 400
    ∧ (followUser dbSample uAlice "bbbbbbbbbbbbbbbbbbbbbbbb").1
        = Resp.ok (true, "aaaaaaaaaaaaaaaaaaaaaaaa")
    ∧ (followUser dbSample uAlice "bbbbbbbbbbbbbbbbbbbbbbbb").2.users.find?
        (fun x => x.id == "aaaaaaaaaaaaaaaaaaaaaaaa")
        = some { uAlice with following := ["bbbbbbbbbbbbbbbbbbbbbbbb"] }
    ∧ (followUser dbSample uAlice "bbbbbbbbbbbbbbbbbbbbbbbb").2.users.find?
        (fun x => x.id == "bbbbbbbbbbbbbbbbbbbbbbbb")
        = some { uBob with followers := ["aaaaaaaaaaaaaaaaaaaaaaaa"] } := by
  have h := follow_toggle_symmetric dbSample uAlice uBob
    "bbbbbbbbbbbbbbbbbbbbbbbb"
  have h3 := (h.2.2.1 (by decide) (by decide) (by decide) (by decide)).1
    (by decide)
  refine ⟨h.1.2, ?_, ?_, ?_⟩
  · have := h3.1
    simpa using this
  · have := h3.2.1
    simpa using this
  · have := h3.2.2.1
    simpa using this

/-- C3: deleting an existing tweet as a non-owner answers 401 and leaves
the store untouched, so the tweet is still retrievable; as the owner it
answers 200, after which reading that id answers 404; every other stored
tweet — in particular every reply referencing the deleted tweet — is
still present (no cascade). -/
theorem delete_requires_ownership (db : DB) (t : Tweet) (callerId : String)
    (hv : validObjectId t.id = true)
    (ht : db.tweets.find? (fun x => x.id == t.id) = some t) :
    (callerId ≠ t.user →
      deleteTweet db callerId t.id = (.unauthorized, db)
      ∧ (deleteTweet db callerId t.id).1.status = 401
      ∧ getTweetById db t.id = .ok t)
    ∧ ((deleteTweet db t.user t.id).1 = .ok "Tweet removed"
      ∧ (deleteTweet db t.user t.id).1.status = 200
      ∧ getTweetById (deleteTweet db t.user t.id).2 t.id = .notFound
      ∧ (getTweetById (deleteTweet db t.user t.id).2 t.id).status = 404
      ∧ (∀ r ∈ db.tweets, r.id ≠ t.id →
          r ∈ (deleteTweet db t.user t.id).2.tweets)) := by
  have hfind : findTweetById db t.id = .ok (some t) := by
    simp [findTweetById, hv, ht]
  have hget : getTweetById db t.id = .ok t := by
    simp [getTweetById, hfind]
  constructor
  · intro hno
    have hbeq : (t.user != callerId) = true := by
      simp [Ne.symm hno]
    have hstep : deleteTweet db callerId t.id = (.unauthorized, db) := by
      simp only [deleteTweet, hfind, hbeq, if_true]
    exact ⟨hstep, by rw [hstep]; rfl, hget⟩
  · have hbeq : (t.user != t.user) = false := by simp
    have hstep : deleteTweet db t.user t.id
        = (.ok "Tweet removed",
           { db with tweets := db.tweets.filter (fun x => x.id != t.id) }) := by
      simp only [deleteTweet, hfind, hbeq, Bool.false_eq_true, if_false]
    have hnone : (deleteTweet db t.user t.id).2.tweets.find?
        (fun x => x.id == t.id) = none := by
      rw [hstep]
      exact find?_filter_ne_id db.tweets t.id
    have hget2 : getTweetById (deleteTweet db t.user t.id).2 t.id
        = .notFound := by
      have hfind2 : findTweetById (deleteTweet db t.user t.id).2 t.id
          = .ok none := by
        simp [findTweetById, hv, hnone]
      simp [getTweetById, hfind2]
    refine ⟨by rw [hstep], by rw [hstep]; rfl, hget2, by rw [hget2]; rfl, ?_⟩
    intro r hr hrne
    rw [hstep]
    show r ∈ db.tweets.filter (fun x => x.id != t.id)
    rw [List.mem_filter]
    exact ⟨hr, by simpa using hrne⟩

/-- C3 witness: Bob cannot delete the sample tweet owned by Alice (401,
still readable); Alice can (200), after which the read answers 404. -/
theorem delete_requires_ownership_witness :
    (deleteTweet dbSample "bbbbbbbbbbbbbbbbbbbbbbbb" tHello.id).1.status = 401
    ∧ getTweetById dbSample tHello.id = .ok tHello
    ∧ (deleteTweet dbSample "aaaaaaaaaaaaaaaaaaaaaaaa" tHello.id).1.status = 200
    ∧ getTweetById
        (deleteTweet dbSample "aaaaaaaaaaaaaaaaaaaaaaaa" tHello.id).2
        tHello.id = .notFound := by
  have h := delete_requires_ownership dbSample tHello
    "bbbbbbbbbbbbbbbbbbbbbbbb" (by decide) (by decide)
  have h1 := h.1 (by decide)
  have h2 := (delete_requires_ownership dbSample tHello
    "aaaaaaaaaaaaaaaaaaaaaaaa" (by decide) (by decide)).2
  exact ⟨h1.2.1, h1.2.2, by simpa using h2.2.1, by simpa using h2.2.2.1⟩

/-- C4: for a page number p at least 1, the timeline answers 200 with
exactly the slice of positions (p-1)*10+1 through p*10 of the sorted
eligible list; that list is a permutation of the stored tweets passing
the eligibility filter, it is sorted newest first, and a tweet belongs
to it exactly when it is stored, non-reply, and authored by the caller,
authored by a followed user, or retweeted by the caller. -/
theorem timeline_page_slice (db : DB) (u : User) (s : String) (p : Int)
    (hp : 1 ≤ p) (hs : pageOf (some s) = p) :
    getTimeline db u (some s)
        = .ok (((timelineSorted db u).drop ((p - 1) * 10).toNat).take 10)
    ∧ (getTimeline db u (some s)).status = 200
    ∧ (timelineSorted db u).Perm (db.tweets.filter (timelineEligible u))
    ∧ (timelineSorted db u).Pairwise (fun a b => b.createdAt ≤ a.createdAt)
    ∧ (∀ t, t ∈ timelineSorted db u ↔ t ∈ db.tweets
        ∧ (t.user ∈ u.following ∨ t.user = u.id ∨ u.id ∈ t.retweets)
        ∧ t.isReply = false) := by
  have hskip : ¬ ((p - 1) * 10 < 0) := by
    have h1 : (0:Int) ≤ p - 1 := by linarith
    have := mul_nonneg h1 (by norm_num : (0:Int) ≤ 10)
    linarith
  have hstep : getTimeline db u (some s)
      = .ok (((timelineSorted db u).drop ((p - 1) * 10).toNat).take 10) := by
    simp only [getTimeline, hs, if_neg hskip]
  refine ⟨hstep, by rw [hstep]; rfl,
    sortTweets_perm (db.tweets.filter (timelineEligible u)),
    sortTweets_sorted (db.tweets.filter (timelineEligible u)), ?_⟩
  intro t
  have hmem : t ∈ timelineSorted db u
      ↔ t ∈ db.tweets.filter (timelineEligible u) :=
    (sortTweets_perm (db.tweets.filter (timelineEligible u))).mem_iff
  rw [hmem, List.mem_filter]
  simp [timelineEligible, or_assoc]

/-- C4 witness: on the sample store, page 2 of the timeline of Alice is
the slice starting at position 11 of the sorted eligible list. -/
theorem timeline_page_slice_witness :
    (1:Int) ≤ 2
    ∧ getTimeline dbSample uAlice (some "2")
        = .ok (((timelineSorted dbSample uAlice).drop 10).take 10)
    ∧ (tHello ∈ timelineSorted dbSample uAlice ↔ tHello ∈ dbSample.tweets
        ∧ (tHello.user ∈ uAlice.following ∨ tHello.user = uAlice.id
            ∨ uAlice.id ∈ tHello.retweets)
        ∧ tHello.isReply = false) := by
  have h := timeline_page_slice dbSample uAlice "2" 2 (by decide) (by decide)
  exact ⟨by decide, by simpa using h.1, h.2.2.2.2 tHello⟩

/-- C5: a missing or empty query answers 400; a non-empty query answers
200 with the users whose name or username contains it case-insensitively
(first at most 10, password and email stripped) and the tweets whose
content contains it (at most 20, newest first); every returned user and
tweet really matches, and when nothing matches both result lists are
empty while the response is still a success. -/
theorem search_query_semantics (db : DB) (qs : String) :
    (search db none = .badRequest ∧ (search db none).status = 400
      ∧ search db (some "") = .badRequest)
    ∧ (qs ≠ "" →
        search db (some qs)
          = .ok (((db.users.filter (userMatches qs)).take 10).map publicUser,
              (sortTweets (db.tweets.filter
                (fun t => ciContains t.content qs))).take 20)
        ∧ (search db (some qs)).status = 200
        ∧ (((db.users.filter (userMatches qs)).take 10).map publicUser).length ≤ 10
        ∧ ((sortTweets (db.tweets.filter
            (fun t => ciContains t.content qs))).take 20).length ≤ 20
        ∧ (∀ pu ∈ ((db.users.filter (userMatches qs)).take 10).map publicUser,
            ∃ w, w ∈ db.users ∧ publicUser w = pu
              ∧ (ciContains w.name qs || ciContains w.username qs) = true)
        ∧ (∀ t ∈ (sortTweets (db.tweets.filter
              (fun t => ciContains t.content qs))).take 20,
            t ∈ db.tweets ∧ ciContains t.content qs = true)
        ∧ ((sortTweets (db.tweets.filter
            (fun t => ciContains t.content qs))).take 20).Pairwise
            (fun a b => b.createdAt ≤ a.createdAt)
        ∧ ((∀ w ∈ db.users, userMatches qs w = false) →
            ((db.users.filter (userMatches qs)).take 10).map publicUser = [])
        ∧ ((∀ t ∈ db.tweets, ciContains t.content qs = false) →
            (sortTweets (db.tweets.filter
              (fun t => ciContains t.content qs))).take 20 = [])) := by
  refine ⟨⟨by simp [search], by simp [search, Resp.status], by simp [search]⟩, ?_⟩
  intro hq
  have hq' : (qs == "") = false := by simpa using hq
  have hstep : search db (some qs)
      = .ok (((db.users.filter (userMatches qs)).take 10).map publicUser,
          (sortTweets (db.tweets.filter
            (fun t => ciContains t.content qs))).take 20) := by
    simp only [search, hq', Bool.false_eq_true, if_false]
  refine ⟨hstep, by rw [hstep]; rfl, ?_, ?_, ?_, ?_, ?_, ?_, ?_⟩
  · rw [List.length_map, List.length_take]
    exact min_le_left _ _
  · rw [List.length_take]
    exact min_le_left _ _
  · intro pu hpu
    obtain ⟨w, hw, rfl⟩ := List.mem_map.mp hpu
    have hw2 : w ∈ db.users.filter (userMatches qs) := List.mem_of_mem_take hw
    have hw3 := List.mem_filter.mp hw2
    exact ⟨w, hw3.1, rfl, hw3.2⟩
  · intro t ht
    have ht2 : t ∈ sortTweets (db.tweets.filter
        (fun t => ciContains t.content qs)) := List.mem_of_mem_take ht
    have ht3 : t ∈ db.tweets.filter (fun t => ciContains t.content qs) :=
      (sortTweets_perm _).mem_iff.mp ht2
    exact List.mem_filter.mp ht3
  · exact (sortTweets_sorted _).sublist (List.take_sublist _ _)
  · intro hall
    have : db.users.filter (userMatches qs) = [] := by
      rw [List.filter_eq_nil_iff]
      intro w hw
      simp [hall w hw]
    rw [this]
    rfl
  · intro hall
    have : db.tweets.filter (fun t => ciContains t.content qs) = [] := by
      rw [List.filter_eq_nil_iff]
      intro t ht
      simp [hall t ht]
    rw [this]
    rfl

/-- C5 witness: searching the sample store for hello finds no user and
exactly the sample tweet, while the empty query is a 400. -/
theorem search_query_semantics_witness :
    search dbSample none = .badRequest
    ∧ search dbSample (some "") = .badRequest
    ∧ search dbSample (some "HELLO")
        = .ok (([] : List PublicUser), [tHello]) := by
  have h := search_query_semantics dbSample "HELLO"
  refine ⟨h.1.1, h.1.2.2, ?_⟩
  have h2 := (h.2 (by decide)).1
  rw [h2]
  decide

/-- C6 counterexample: the follow handler, whose catch branch does not
filter CastError by kind, answers 500 — not 404 — when the target path
id is malformed, contradicting the claim that every identifier-lookup
handler answers 404 on a malformed identifier. -/
theorem follow_malformed_id_is_500 :
    (followUser dbSample uAlice "zzz").1 = Resp.serverError
    ∧ (followUser dbSample uAlice "zzz").1.status = 500
    ∧ ¬ ((followUser dbSample uAlice "zzz").1.status = 404) := by
  refine ⟨?_, ?_, ?_⟩ <;> decide

/-- C6 amended: every tweet-route handler that looks an entity up by a
path identifier (read, delete, like, retweet, reply, replies list,
tweets by user) answers 404 on a malformed identifier, but the user
follow handler answers 500 there, because its catch branch lacks the
CastError-kind test. -/
theorem malformed_id_handling (db : DB) (u : User)
    (callerId tid content nid : String) (file : Option String) (now : Nat)
    (hv : validObjectId tid = false) :
    getTweetById db tid = .notFound
    ∧ (getTweetById db tid).status = 404
    ∧ (deleteTweet db callerId tid).1 = .notFound
    ∧ (likeTweet db callerId tid).1 = .notFound
    ∧ (retweetTweet db callerId tid).1 = .notFound
    ∧ (content ≠ "" →
        (replyTweet db u tid content file nid now).1 = .notFound)
    ∧ getReplies db tid = .notFound
    ∧ getTweetsByUser db tid = .notFound
    ∧ (tid ≠ u.id →
        (followUser db u tid).1 = .serverError
        ∧ (followUser db u tid).1.status = 500) := by
  have herr : findTweetById db tid = .error () := by
    simp [findTweetById, hv]
  have herrU : findUserById db tid = .error () := by
    simp [findUserById, hv]
  refine ⟨by simp [getTweetById, herr], ?_, by simp [deleteTweet, herr],
    by simp [likeTweet, herr], by simp [retweetTweet, herr], ?_,
    by simp [getReplies, hv], by simp [getTweetsByUser, hv], ?_⟩
  · rw [show getTweetById db tid = .notFound from by simp [getTweetById, herr]]
    rfl
  · intro hc
    have hc' : (content == "") = false := by simpa using hc
    simp [replyTweet, hc', herr]
  · intro hne
    have hstep : (followUser db u tid).1 = .serverError := by
      simp [followUser, hne, herrU]
    exact ⟨hstep, by rw [hstep]; rfl⟩

/-- C6 amended witness: a concrete malformed id exercises all branches:
the tweet handlers answer 404 and the follow handler answers 500. -/
theorem malformed_id_handling_witness :
    getTweetById dbSample "zzz" = .notFound
    ∧ (deleteTweet dbSample "aaaaaaaaaaaaaaaaaaaaaaaa" "zzz").1 = .notFound
    ∧ (likeTweet dbSample "aaaaaaaaaaaaaaaaaaaaaaaa" "zzz").1 = .notFound
    ∧ (retweetTweet dbSample "aaaaaaaaaaaaaaaaaaaaaaaa" "zzz").1 = .notFound
    ∧ (replyTweet dbSample uAlice "zzz" "hi" none "n" 0).1 = .notFound
    ∧ getReplies dbSample "zzz" = .notFound
    ∧ getTweetsByUser dbSample "zzz" = .notFound
    ∧ (followUser dbSample uBob "zzz").1.status = 500 := by
  have h := malformed_id_handling dbSample uBob
    "aaaaaaaaaaaaaaaaaaaaaaaa" "zzz" "hi" "n" none 0 (by decide)
  have h2 := malformed_id_handling dbSample uAlice
    "aaaaaaaaaaaaaaaaaaaaaaaa" "zzz" "hi" "n" none 0 (by decide)
  exact ⟨h.1, h.2.2.1, h.2.2.2.1, h.2.2.2.2.1,
    h2.2.2.2.2.2.1 (by decide), h.2.2.2.2.2.2.1, h.2.2.2.2.2.2.2.1,
    (h.2.2.2.2.2.2.2.2 (by decide)).2⟩

/-- C7: the profile update applies exactly the recognized body fields
that are present (and truthy, since the handler tests them with an if),
leaves every other stored field — identity, credentials, images, follow
lists — unchanged, ignores unrecognized body content entirely, and
answers the updated record with the password stripped. -/
theorem update_profile_partial_frame (db : DB) (c : User) (b : ProfileBody)
    (hc : db.users.find? (fun x => x.id == c.id) = some c) :
    updateMe db c b
        = (.ok (some (stripPassword (applyProfile b c))),
           updateUserById db c.id (applyProfile b))
    ∧ (applyProfile b c).id = c.id
    ∧ (applyProfile b c).username = c.username
    ∧ (applyProfile b c).email = c.email
    ∧ (applyProfile b c).password = c.password
    ∧ (applyProfile b c).profileImage = c.profileImage
    ∧ (applyProfile b c).coverImage = c.coverImage
    ∧ (applyProfile b c).followers = c.followers
    ∧ (applyProfile b c).following = c.following
    ∧ ((b.name = none ∨ b.name = some "") →
        (applyProfile b c).name = c.name)
    ∧ (∀ s, b.name = some s → s ≠ "" → (applyProfile b c).name = s)
    ∧ ((b.bio = none ∨ b.bio = some "") → (applyProfile b c).bio = c.bio)
    ∧ (∀ s, b.bio = some s → s ≠ "" → (applyProfile b c).bio = s)
    ∧ ((b.location = none ∨ b.location = some "") →
        (applyProfile b c).location = c.location)
    ∧ (∀ s, b.location = some s → s ≠ "" → (applyProfile b c).location = s)
    ∧ ((b.website = none ∨ b.website = some "") →
        (applyProfile b c).website = c.website)
    ∧ (∀ s, b.website = some s → s ≠ "" → (applyProfile b c).website = s)
    ∧ (∀ e, applyProfile { b with extra := e } c = applyProfile b c) := by
  have hlook : (updateUserById db c.id (applyProfile b)).users.find?
      (fun x => x.id == c.id) = some (applyProfile b c) := by
    show (db.users.map
        (fun x => if x.id == c.id then applyProfile b x else x)).find?
        (fun x => x.id == c.id) = some (applyProfile b c)
    rw [find?_updateById_list _ c.id (applyProfile b) (fun v => rfl), hc]
    rfl
  refine ⟨by simp [updateMe, hlook], rfl, rfl, rfl, rfl, rfl, rfl, rfl, rfl,
    ?_, ?_, ?_, ?_, ?_, ?_, ?_, ?_, fun e => rfl⟩
  · rintro (h | h) <;> simp [applyProfile, applyField, h]
  · intro s hs hne
    simp [applyProfile, applyField, hs, hne]
  · rintro (h | h) <;> simp [applyProfile, applyField, h]
  · intro s hs hne
    simp [applyProfile, applyField, hs, hne]
  · rintro (h | h) <;> simp [applyProfile, applyField, h]
  · intro s hs hne
    simp [applyProfile, applyField, hs, hne]
  · rintro (h | h) <;> simp [applyProfile, applyField, h]
  · intro s hs hne
    simp [applyProfile, applyField, hs, hne]

/-- A sample profile-update body: only the bio is present and truthy,
the location is present but empty (falsy), and an unrecognized field
came along. -/
def bodyBio : ProfileBody :=
  { name := none, bio := some "new bio", location := some "",
    website := none, extra := [("admin", "yes")] }

/-- C7 witness: Alice updates her bio only (with an unrecognized junk
field present); the stored record changes in the bio alone and the
response is the updated record without password. -/
theorem update_profile_partial_frame_witness :
    updateMe dbSample uAlice bodyBio
      = (.ok (some (stripPassword { uAlice with bio := "new bio" })),
         updateUserById dbSample uAlice.id (applyProfile bodyBio)) := by
  have h := update_profile_partial_frame dbSample uAlice bodyBio (by decide)
  rw [h.1]
  have h2 : applyProfile bodyBio uAlice = { uAlice with bio := "new bio" } := by
    decide
  rw [h2]

/-- C8: every tweet the create handler persists has no parent and a
false reply flag; every tweet the reply handler persists has its parent
set to the (existing) target tweet id and a true reply flag; in both
cases the parent reference is present exactly when the reply flag is
set. -/
theorem reply_parent_invariant (db db' : DB) (u : User)
    (content nid tid : String) (file : Option String) (now : Nat)
    (t : Tweet) :
    (createTweet db u content file nid now = (.ok t, db') →
      t.parent = none ∧ t.isReply = false ∧ t.user = u.id
        ∧ t.parent.isSome = t.isReply)
    ∧ (replyTweet db u tid content file nid now = (.ok t, db') →
      t.parent = some tid ∧ t.isReply = true ∧ t.user = u.id
        ∧ (∃ pt, db.tweets.find? (fun x => x.id == tid) = some pt)
        ∧ t.parent.isSome = t.isReply) := by
  constructor
  · intro h
    by_cases hcz : (content == "") = true
    · simp [createTweet, hcz] at h
    · have hc' : (content == "") = false := by simpa using hcz
      simp only [createTweet, hc', Bool.false_eq_true, if_false,
        Prod.mk.injEq, Resp.ok.injEq] at h
      obtain ⟨ht, -⟩ := h
      subst ht
      exact ⟨rfl, rfl, rfl, rfl⟩
  · intro h
    by_cases hcz : (content == "") = true
    · simp [replyTweet, hcz] at h
    · have hc' : (content == "") = false := by simpa using hcz
      cases hf : findTweetById db tid with
      | error e =>
        simp [replyTweet, hc', hf] at h
      | ok o =>
        cases o with
        | none => simp [replyTweet, hc', hf] at h
        | some pt =>
          have hfind : db.tweets.find? (fun x => x.id == tid) = some pt := by
            by_cases hv : validObjectId tid = true
            · simpa [findTweetById, hv] using hf
            · have hv' : validObjectId tid = false := by simpa using hv
              simp [findTweetById, hv'] at hf
          simp only [replyTweet, hc', Bool.false_eq_true, if_false, hf,
            Prod.mk.injEq, Resp.ok.injEq] at h
          obtain ⟨ht, -⟩ := h
          subst ht
          exact ⟨rfl, rfl, rfl, ⟨pt, hfind⟩, rfl⟩

/-- The tweet the create handler persists in the witness below. -/
def tCreated : Tweet :=
  { id := "dddddddddddddddddddddddd", user := "bbbbbbbbbbbbbbbbbbbbbbbb",
    content := "hi", image := none, likes := [], retweets := [],
    parent := none, isReply := false, createdAt := 9 }

/-- The reply tweet the reply handler persists in the witness below. -/
def tReply : Tweet :=
  { id := "eeeeeeeeeeeeeeeeeeeeeeee", user := "bbbbbbbbbbbbbbbbbbbbbbbb",
    content := "yo", image := none, likes := [], retweets := [],
    parent := some "cccccccccccccccccccccccc", isReply := true,
    createdAt := 10 }

/-- C8 witness: on the sample store, the created tweet has no parent and
reply flag false, and the reply to the sample tweet carries its id as
parent with reply flag true; in both the parent is present iff the flag
is set. -/
theorem reply_parent_invariant_witness :
    tCreated.parent = none ∧ tCreated.isReply = false
    ∧ tReply.parent = some tHello.id ∧ tReply.isReply = true
    ∧ tCreated.parent.isSome = tCreated.isReply
    ∧ tReply.parent.isSome = tReply.isReply := by
  have h1 := (reply_parent_invariant dbSample
    (createTweet dbSample uBob "hi" none "dddddddddddddddddddddddd" 9).2
    uBob "hi" "dddddddddddddddddddddddd" tHello.id none 9 tCreated).1
    (by decide)
  have h2 := (reply_parent_invariant dbSample
    (replyTweet dbSample uBob tHello.id "yo" none
      "eeeeeeeeeeeeeeeeeeeeeeee" 10).2
    uBob "yo" "eeeeeeeeeeeeeeeeeeeeeeee" tHello.id none 10 tReply).2
    (by decide)
  exact ⟨h1.1, h1.2.1, h2.1, h2.2.1, h1.2.2.2, h2.2.2.2.2⟩

/-- C10: a page query parameter that is absent, digit-free (parseInt
NaN), or equal to 0 falls back to page 1 — skip 0 — and the timeline
answers 200 with the first ten sorted eligible tweets rather than
rejecting the value. -/
theorem timeline_page_fallback (db : DB) (u : User) (s : String)
    (hs : jsParseInt s = none) :
    pageOf none = 1
    ∧ pageOf (some s) = 1
    ∧ pageOf (some "0") = 1
    ∧ getTimeline db u none = .ok ((timelineSorted db u).take 10)
    ∧ getTimeline db u (some s) = .ok ((timelineSorted db u).take 10)
    ∧ getTimeline db u (some "0") = .ok ((timelineSorted db u).take 10)
    ∧ (getTimeline db u none).status = 200
    ∧ (getTimeline db u (some s)).status = 200
    ∧ (getTimeline db u (some "0")).status = 200 := by
  have hp1 : pageOf none = 1 := rfl
  have hp2 : pageOf (some s) = 1 := by simp [pageOf, hs]
  have hp3 : pageOf (some "0") = 1 := by decide
  have hg : ∀ q : Option String, pageOf q = 1 →
      getTimeline db u q = .ok ((timelineSorted db u).take 10) := by
    intro q hq
    simp [getTimeline, hq]
  have hg1 := hg none hp1
  have hg2 := hg (some s) hp2
  have hg3 := hg (some "0") hp3
  exact ⟨hp1, hp2, hp3, hg1, hg2, hg3, by rw [hg1]; rfl, by rw [hg2]; rfl,
    by rw [hg3]; rfl⟩

/-- C10 witness: a digit-free page string behaves as page 1 on the
sample store, as do the absent parameter and the string 0. -/
theorem timeline_page_fallback_witness :
    jsParseInt "abc" = none
    ∧ getTimeline dbSample uAlice none
        = .ok ((timelineSorted dbSample uAlice).take 10)
    ∧ getTimeline dbSample uAlice (some "abc")
        = .ok ((timelineSorted dbSample uAlice).take 10)
    ∧ getTimeline dbSample uAlice (some "0")
        = .ok ((timelineSorted dbSample uAlice).take 10) := by
  have h := timeline_page_fallback dbSample uAlice "abc" (by decide)
  exact ⟨by decide, h.2.2.2.1, h.2.2.2.2.1, h.2.2.2.2.2.1⟩

end TwitterBackend
